import Mathlib

/-!
Shallow embedding of the zenblog client SDK fetch/error contract.

Sources:
  - src/packages/zenblog/src/index.ts : management client
    (createFetcher, createZenblogClient with posts.list and posts.get).
  - src/unnamed/part_002 (third segment) : public client library
    (logError, createDebugger, getConfig, throwError, createClient with
    posts.getAll and posts.getBySlug).

The underlying JavaScript runtime is modelled explicitly: JSON values,
thrown errors, the single outbound HTTP request each call performs, and
the side-channel log (console output).  A call is a pure function of its
arguments and of the transport (the mocked network), returning the
JavaScript outcome (a value or a thrown error), the list of requests that
were issued, and the list of log events that were emitted.
-/

/-- A JSON value, as produced by a successful response-body parse. -/
inductive Json where
  | null
  | bool (b : Bool)
  | num (n : Int)
  | str (s : String)
  | arr (elems : List Json)
  | obj (fields : List (String × Json))

/-- JavaScript property access on a parsed JSON value: on an object it
looks the key up (undefined, i.e. none, when absent); on any other
non-null value it yields undefined.  Access on null throws in JS and is
handled separately where the source performs it. -/
def Json.getField : Json → String → Option Json
  | .obj fields, key => fields.lookup key
  | _, _ => none

/-- A thrown JavaScript error: an Error built by the throwError helper
carries only its message string; jsonParse is the SyntaxError from
res.json() on a malformed body; typeError covers runtime type errors
(e.g. calling map on a non-array). -/
inductive JsError where
  | error (message : String)
  | jsonParse
  | typeError (message : String)
deriving DecidableEq

/-- An HTTP response delivered by the transport.  body is none when the
body is not valid JSON, so that res.json() rejects. -/
structure Response where
  status : Nat
  headers : List (String × String)
  body : Option Json

/-- The fetch API ok flag: status in the inclusive range 200-299. -/
def Response.ok (r : Response) : Bool :=
  decide (200 ≤ r.status) && decide (r.status ≤ 299)

/-- What the mocked network does for the single request a call issues:
either the fetch promise rejects (network failure) or a response is
delivered. -/
inductive Transport where
  | networkError (e : JsError)
  | response (r : Response)

/-- An outbound HTTP request as handed to fetch. -/
structure Request where
  url : String
  method : String
  headers : List (String × String)
  cache : Option String
deriving DecidableEq

/-- The RequestInit options object passed to the fetch wrappers. -/
structure RequestInit where
  method : String
  headers : List (String × String)
  cache : Option String
deriving DecidableEq

/-- A side-channel log event: debugLog is the debug logger output (gated
on the debug flag), logError is the console.error performed by the
shared logError helper inside throwError (optionally carrying the raw
response passed as an extra argument), catchLog is the console.error in
the management fetcher catch block, carrying the caught error. -/
inductive LogEvent where
  | debugLog (message : String)
  | logError (message : String) (res : Option Response)
  | catchLog (e : JsError)

/-- Outcome of one SDK call: the JavaScript result (returned value or
thrown error), the outbound requests issued, and the log events. -/
structure RunResult (α : Type) where
  result : Except JsError α
  requests : List Request
  logs : List LogEvent

/-- part_002 createDebugger: logs its arguments only when the debug flag
is set; its return value is discarded by all callers. -/
def createDebugger (debug : Bool) (message : String) : List LogEvent :=
  if debug then [LogEvent.debugLog message] else []

/-- Modelled from the spec: the management client imports createLogger
from its lib module, which is not under src (only part_002 has the
public twin createDebugger).  Per the spec debug-logging section it
writes request and response information to a side channel when enabled
via configuration and never affects control flow or return values. -/
def createLogger (debug : Bool) (message : String) : List LogEvent :=
  if debug then [LogEvent.debugLog message] else []

/-- part_002 throwError, lines 88-91: the thrown Error object, wrapping
only the marker-prefixed message.  The extra arguments (such as the raw
response) go to logError, not into the Error. -/
def throwErrorError (msg : String) : JsError :=
  JsError.error ("[🚨] " ++ msg)

/-- part_002 throwError, lines 88-91: the console.error side effect
performed via logError before throwing. -/
def throwErrorEvent (msg : String) (res : Option Response) : LogEvent :=
  LogEvent.logError msg res

/-- JavaScript truthiness fallback (x or-else default) for an optional
string option: the default is used when the option is missing or is the
empty string (falsy). -/
def jsOrDefault : Option String → String → String
  | some s, dflt => if s = "" then dflt else s
  | none, dflt => dflt

/-- part_002 getConfig: the public client base API endpoint. -/
def getConfig (url : Option String) : String :=
  jsOrDefault url "https://zenblog.com/api/public"

/-- index.ts: the management client base API endpoint
(config.api = _url or the fixed management hostname). -/
def mgmtApi (url : Option String) : String :=
  jsOrDefault url "https://api.zenblog.com"

/-- JavaScript object spread of two string maps: keys of extra override
keys of base. -/
def objSpread (base extra : List (String × String)) : List (String × String) :=
  base.filter (fun kv => (extra.lookup kv.1).isNone) ++ extra

/-- index.ts createFetcher lines 13-17: the default headers injected
into every management request. -/
def defaultHeaders (accessToken : String) : List (String × String) :=
  [("authorization", "Bearer " ++ accessToken),
   ("Content-Type", "application/json")]

/-- part_002 createClient lines 117-134, the inner _fetch of the public
client: build the URL from the base endpoint, the blog id and the path,
issue the request, parse the body as JSON, log the response, and throw
the fixed API error on a non-ok status.  There is no try/catch, so a
network failure or a JSON parse failure propagates unchanged. -/
def public_fetch (api blogId : String) (debug : Bool)
    (path : String) (opts : RequestInit) (t : Transport) : RunResult Json :=
  let url := api ++ "/" ++ blogId ++ "/" ++ path
  let req : Request :=
    { url := url, method := opts.method, headers := opts.headers, cache := opts.cache }
  let preLogs := createDebugger debug ("fetching " ++ url)
  match t with
  | .networkError e => ⟨.error e, [req], preLogs⟩
  | .response r =>
    match r.body with
    | none => ⟨.error .jsonParse, [req], preLogs⟩
    | some json =>
      let resLogs := preLogs ++ createDebugger debug "res"
      if r.ok then
        ⟨.ok json, [req], resLogs⟩
      else
        ⟨.error (throwErrorError "Error fetching data from API"), [req],
          resLogs ++ [throwErrorEvent "Error fetching data from API" (some r)]⟩

/-- part_002 lines 151-159: the object literal built for each element of
the list response, keeping exactly the five Post summary keys with the
values read off the raw element (undefined, i.e. none, when absent). -/
def normalizeFields (post : Json) : List (String × Option Json) :=
  [("slug", post.getField "slug"),
   ("title", post.getField "title"),
   ("created_at", post.getField "created_at"),
   ("updated_at", post.getField "updated_at"),
   ("cover_image", post.getField "cover_image")]

/-- The map callback of part_002 getAll applied to one raw element:
property access on a null element throws a TypeError in JavaScript;
on every other value it builds the normalized object literal. -/
def normalizePost (post : Json) : Except JsError (List (String × Option Json)) :=
  match post with
  | .null => .error (.typeError "Cannot read properties of null")
  | p => .ok (normalizeFields p)

/-- JavaScript Array.prototype.map with a callback that can throw: the
elements are visited in order and the first thrown error propagates. -/
def mapJs {α β : Type} (f : α → Except JsError β) : List α → Except JsError (List β)
  | [] => .ok []
  | x :: xs =>
    match f x with
    | .error e => .error e
    | .ok y =>
      match mapJs f xs with
      | .error e => .error e
      | .ok ys => .ok (y :: ys)

/-- A well-formed post summary record as returned by the server: a JSON
object whose slug, title, created_at and updated_at fields are present
and are strings (cover_image may or may not be present). -/
def isStringField (v : Option Json) : Bool :=
  match v with
  | some (.str _) => true
  | _ => false

/-- Validity of one raw post record, in the sense of the spec's shape
for Post summaries. -/
def ValidPost (p : Json) : Bool :=
  match p with
  | .obj _ =>
    isStringField (p.getField "slug") && isStringField (p.getField "title") &&
    isStringField (p.getField "created_at") && isStringField (p.getField "updated_at")
  | _ => false

/-- part_002 createClient.posts.getAll lines 142-162: fetch the posts
path with a JSON content-type header, log the raw array, then map each
element to the normalized Post shape.  Calling map on a non-array value
throws a TypeError. -/
def posts_getAll (blogId : String) (url : Option String) (debug : Bool)
    (t : Transport) : RunResult (List (List (String × Option Json))) :=
  let fr := public_fetch (getConfig url) blogId debug "posts"
    { method := "GET", headers := [("Content-Type", "application/json")], cache := none } t
  match fr.result with
  | .error e => ⟨.error e, fr.requests, fr.logs⟩
  | .ok posts =>
    let logs := fr.logs ++ createDebugger debug "posts.getAll"
    match posts with
    | .arr elems =>
      match mapJs normalizePost elems with
      | .ok normalized => ⟨.ok normalized, fr.requests, logs⟩
      | .error e => ⟨.error e, fr.requests, logs⟩
    | _ => ⟨.error (.typeError "posts.map is not a function"), fr.requests, logs⟩

/-- part_002 createClient.posts.getBySlug lines 163-172: fetch the
single-post path built from the slug and return the parsed body as is
(the source casts without validating). -/
def posts_getBySlug (blogId : String) (url : Option String) (debug : Bool)
    (slug : String) (t : Transport) : RunResult Json :=
  public_fetch (getConfig url) blogId debug ("post/" ++ slug)
    { method := "GET", headers := [("Content-Type", "application/json")], cache := none } t

/-- part_002 createClient lines 112-140: the factory logs its config,
defines _fetch without calling it, then rejects a falsy (empty) blogId
via throwError; no request is issued during construction. -/
def createClient (blogId : String) (_url : Option String) (debug : Bool) :
    RunResult Unit :=
  let logs := createDebugger debug "createClient"
  if blogId = "" then
    ⟨.error (throwErrorError "blogId is required"), [],
      logs ++ [throwErrorEvent "blogId is required" none]⟩
  else
    ⟨.ok (), [], logs⟩

/-- index.ts createFetcher lines 8-45, the management _fetch: build the
URL from the base endpoint and the path, merge the default
authorization and content-type headers with the per-call headers
(per-call keys override), issue the request, parse the body as JSON,
throw the fixed subscription message if the subscription-status header
is inactive, log the response, throw the fixed API error on a non-ok
status, and return the parsed body.  The whole body sits in a try/catch
whose handler performs a console.error and rethrows the same error. -/
def mgmt_fetch (api accessToken : String) (debug : Bool)
    (path : String) (opts : RequestInit) (t : Transport) : RunResult Json :=
  let url := api ++ "/" ++ path
  let reqHeaders := objSpread (defaultHeaders accessToken) opts.headers
  let req : Request :=
    { url := url, method := opts.method, headers := reqHeaders, cache := opts.cache }
  let preLogs := createLogger debug ("fetch " ++ url)
  match t with
  | .networkError e => ⟨.error e, [req], preLogs ++ [.catchLog e]⟩
  | .response r =>
    match r.body with
    | none => ⟨.error .jsonParse, [req], preLogs ++ [.catchLog .jsonParse]⟩
    | some json =>
      if r.headers.lookup "zenblog-subscription-status" = some "inactive" then
        let e := throwErrorError
          "Zenblog subscription is inactive. Go to https://zenblog.com to subscribe."
        ⟨.error e, [req], preLogs ++
          [throwErrorEvent
            "Zenblog subscription is inactive. Go to https://zenblog.com to subscribe."
            none, .catchLog e]⟩
      else
        let resLogs := preLogs ++ createLogger debug "res"
        if r.ok then
          ⟨.ok json, [req], resLogs⟩
        else
          let e := throwErrorError "Error fetching data from API"
          ⟨.error e, [req], resLogs ++
            [throwErrorEvent "Error fetching data from API" (some r), .catchLog e]⟩

/-- index.ts createZenblogClient.posts.list lines 75-84: fetch the posts
path with the per-call cache directive (defaulting to the string
default), log the result, and return the parsed array unchanged (the
source casts to an open generic shape, passing extra fields through). -/
def posts_list (accessToken : String) (url : Option String) (debug : Bool)
    (cache : Option String) (t : Transport) : RunResult Json :=
  let fr := mgmt_fetch (mgmtApi url) accessToken debug "posts"
    { method := "GET", headers := [], cache := some (jsOrDefault cache "default") } t
  match fr.result with
  | .ok posts => ⟨.ok posts, fr.requests, fr.logs ++ createLogger debug "posts.getAll"⟩
  | .error e => ⟨.error e, fr.requests, fr.logs⟩

/-- index.ts createZenblogClient.posts.get lines 85-97: fetch the
single-post path built from the slug and return the parsed body
unchanged. -/
def posts_get (accessToken : String) (url : Option String) (debug : Bool)
    (slug : String) (cache : Option String) (t : Transport) : RunResult Json :=
  let fr := mgmt_fetch (mgmtApi url) accessToken debug ("post/" ++ slug)
    { method := "GET", headers := [], cache := some (jsOrDefault cache "default") } t
  match fr.result with
  | .ok post => ⟨.ok post, fr.requests, fr.logs ++ createLogger debug "posts.getBySlug"⟩
  | .error e => ⟨.error e, fr.requests, fr.logs⟩

/-- index.ts createZenblogClient lines 47-68: the factory first rejects
a browser-like execution context (typeof window defined), then a falsy
(empty) access token, both via throwError; only then does it build the
logger and the fetcher.  No request is issued during construction. -/
def createZenblogClient (accessToken : String) (_url : Option String)
    (_debug : Bool) (windowDefined : Bool) : RunResult Unit :=
  if windowDefined then
    ⟨.error (throwErrorError
        "Zenblog is not supported in the browser. Make sure you don\x27t leak your access token."),
      [],
      [throwErrorEvent
        "Zenblog is not supported in the browser. Make sure you don\x27t leak your access token."
        none]⟩
  else if accessToken = "" then
    ⟨.error (throwErrorError "accessToken is required"), [],
      [throwErrorEvent "accessToken is required" none]⟩
  else
    ⟨.ok (), [], []⟩

theorem lookup_append {α β : Type} [BEq α] (l₁ l₂ : List (α × β)) (k : α) :
    (l₁ ++ l₂).lookup k = ((l₁.lookup k).orElse (fun _ => l₂.lookup k)) := by
  induction l₁ with
  | nil => simp [List.lookup, Option.orElse]
  | cons kv rest ih =>
    rw [List.cons_append]
    rw [List.lookup]
    rw [List.lookup]
    cases h : k == kv.1 with
    | true => simp [Option.orElse]
    | false => simp [ih, Option.orElse]

theorem lookup_filter_keys (base extra : List (String × String)) (k : String) :
    (base.filter (fun kv => (extra.lookup kv.1).isNone)).lookup k =
      (if (extra.lookup k).isNone then base.lookup k else none) := by
  induction base with
  | nil => simp [List.lookup]
  | cons kv rest ih =>
    obtain ⟨a, b⟩ := kv
    by_cases hk : k = a
    · subst hk
      cases h : (extra.lookup k).isNone with
      | true => simp [List.filter_cons, h, List.lookup, ih]
      | false => simp [List.filter_cons, h, List.lookup, ih]
    · have hbeq : (k == a) = false := by simp [hk]
      cases h : (extra.lookup a).isNone with
      | true => simp [List.filter_cons, h, List.lookup, hbeq, ih]
      | false => simp [List.filter_cons, h, List.lookup, hbeq, ih]

/-- The JavaScript object spread resolves a key to the overriding map
first, falling back to the base map. -/
theorem lookup_objSpread (base extra : List (String × String)) (k : String) :
    (objSpread base extra).lookup k =
      ((extra.lookup k).orElse (fun _ => base.lookup k)) := by
  rw [objSpread, lookup_append, lookup_filter_keys]
  cases h : extra.lookup k with
  | none => cases hb : base.lookup k <;> simp [h, hb, Option.orElse]
  | some v => simp [h, Option.orElse]

/-- Every run of the public fetch issues exactly the one request built
from the base endpoint, the blog id and the path, with the per-call
options passed through. -/
theorem public_fetch_requests (api blogId path : String) (debug : Bool)
    (opts : RequestInit) (t : Transport) :
    (public_fetch api blogId debug path opts t).requests =
      [⟨api ++ "/" ++ blogId ++ "/" ++ path, opts.method, opts.headers, opts.cache⟩] := by
  cases t with
  | networkError e => rfl
  | response r =>
    cases hb : r.body with
    | none => simp [public_fetch, hb]
    | some j =>
      simp only [public_fetch, hb]
      split <;> rfl

/-- Every run of the management fetch issues exactly the one request
built from the base endpoint and the path, with the default headers
spread under the per-call headers. -/
theorem mgmt_fetch_requests (api accessToken path : String) (debug : Bool)
    (opts : RequestInit) (t : Transport) :
    (mgmt_fetch api accessToken debug path opts t).requests =
      [⟨api ++ "/" ++ path, opts.method,
        objSpread (defaultHeaders accessToken) opts.headers, opts.cache⟩] := by
  cases t with
  | networkError e => rfl
  | response r =>
    cases hb : r.body with
    | none => simp [mgmt_fetch, hb]
    | some j =>
      simp only [mgmt_fetch, hb]
      split
      · rfl
      · split <;> rfl

/-- The public getAll issues exactly one request, to the posts path. -/
theorem posts_getAll_requests (blogId : String) (url : Option String)
    (debug : Bool) (t : Transport) :
    (posts_getAll blogId url debug t).requests =
      [⟨getConfig url ++ "/" ++ blogId ++ "/" ++ "posts", "GET",
        [("Content-Type", "application/json")], none⟩] := by
  have h := public_fetch_requests (getConfig url) blogId "posts" debug
    ⟨"GET", [("Content-Type", "application/json")], none⟩ t
  simp only [posts_getAll]
  cases hres : (public_fetch (getConfig url) blogId debug "posts"
      ⟨"GET", [("Content-Type", "application/json")], none⟩ t).result with
  | error e => simpa [hres] using h
  | ok posts =>
    cases posts <;> simp [hres, h]
    cases hmap : mapJs normalizePost _ <;> simp [hmap, h]

/-- The management list issues exactly one request, to the posts path. -/
theorem posts_list_requests (accessToken : String) (url cache : Option String)
    (debug : Bool) (t : Transport) :
    (posts_list accessToken url debug cache t).requests =
      [⟨mgmtApi url ++ "/" ++ "posts", "GET",
        objSpread (defaultHeaders accessToken) [],
        some (jsOrDefault cache "default")⟩] := by
  have h := mgmt_fetch_requests (mgmtApi url) accessToken "posts" debug
    ⟨"GET", [], some (jsOrDefault cache "default")⟩ t
  simp only [posts_list]
  cases hres : (mgmt_fetch (mgmtApi url) accessToken debug "posts"
      ⟨"GET", [], some (jsOrDefault cache "default")⟩ t).result with
  | error e => simpa [hres] using h
  | ok posts => simpa [hres] using h

/-- The management get issues exactly one request, to the single-post
path built from the slug. -/
theorem posts_get_requests (accessToken slug : String) (url cache : Option String)
    (debug : Bool) (t : Transport) :
    (posts_get accessToken url debug slug cache t).requests =
      [⟨mgmtApi url ++ "/" ++ ("post/" ++ slug), "GET",
        objSpread (defaultHeaders accessToken) [],
        some (jsOrDefault cache "default")⟩] := by
  have h := mgmt_fetch_requests (mgmtApi url) accessToken ("post/" ++ slug) debug
    ⟨"GET", [], some (jsOrDefault cache "default")⟩ t
  simp only [posts_get]
  cases hres : (mgmt_fetch (mgmtApi url) accessToken debug ("post/" ++ slug)
      ⟨"GET", [], some (jsOrDefault cache "default")⟩ t).result with
  | error e => simpa [hres] using h
  | ok post => simpa [hres] using h

/-- The result of the public fetch does not depend on the debug flag. -/
theorem public_fetch_result_debug (api blogId path : String)
    (opts : RequestInit) (t : Transport) (d₁ d₂ : Bool) :
    (public_fetch api blogId d₁ path opts t).result =
      (public_fetch api blogId d₂ path opts t).result := by
  cases t with
  | networkError e => rfl
  | response r =>
    cases hb : r.body with
    | none => simp [public_fetch, hb]
    | some j =>
      simp only [public_fetch, hb]
      split <;> rfl

/-- The result of the management fetch does not depend on the debug
flag. -/
theorem mgmt_fetch_result_debug (api accessToken path : String)
    (opts : RequestInit) (t : Transport) (d₁ d₂ : Bool) :
    (mgmt_fetch api accessToken d₁ path opts t).result =
      (mgmt_fetch api accessToken d₂ path opts t).result := by
  cases t with
  | networkError e => rfl
  | response r =>
    cases hb : r.body with
    | none => simp [mgmt_fetch, hb]
    | some j =>
      simp only [mgmt_fetch, hb]
      split
      · rfl
      · split <;> rfl

/-- The result of the public getAll does not depend on the debug flag. -/
theorem posts_getAll_result_debug (blogId : String) (url : Option String)
    (t : Transport) (d₁ d₂ : Bool) :
    (posts_getAll blogId url d₁ t).result = (posts_getAll blogId url d₂ t).result := by
  have h := public_fetch_result_debug (getConfig url) blogId "posts"
    ⟨"GET", [("Content-Type", "application/json")], none⟩ t d₁ d₂
  simp only [posts_getAll]
  cases hres : (public_fetch (getConfig url) blogId d₁ "posts"
      ⟨"GET", [("Content-Type", "application/json")], none⟩ t).result with
  | error e =>
    rw [hres] at h
    rw [← h]
  | ok posts =>
    rw [hres] at h
    rw [← h]
    cases posts <;> simp
    cases hmap : mapJs normalizePost _ <;> simp [hmap]

/-- The result of the public getBySlug does not depend on the debug
flag. -/
theorem posts_getBySlug_result_debug (blogId slug : String) (url : Option String)
    (t : Transport) (d₁ d₂ : Bool) :
    (posts_getBySlug blogId url d₁ slug t).result =
      (posts_getBySlug blogId url d₂ slug t).result :=
  public_fetch_result_debug (getConfig url) blogId ("post/" ++ slug)
    ⟨"GET", [("Content-Type", "application/json")], none⟩ t d₁ d₂

/-- The result of the management list does not depend on the debug
flag. -/
theorem posts_list_result_debug (accessToken : String) (url cache : Option String)
    (t : Transport) (d₁ d₂ : Bool) :
    (posts_list accessToken url d₁ cache t).result =
      (posts_list accessToken url d₂ cache t).result := by
  have h := mgmt_fetch_result_debug (mgmtApi url) accessToken "posts"
    ⟨"GET", [], some (jsOrDefault cache "default")⟩ t d₁ d₂
  simp only [posts_list]
  cases hres : (mgmt_fetch (mgmtApi url) accessToken d₁ "posts"
      ⟨"GET", [], some (jsOrDefault cache "default")⟩ t).result with
  | error e =>
    rw [hres] at h
    rw [← h]
  | ok posts =>
    rw [hres] at h
    rw [← h]

/-- The result of the management get does not depend on the debug
flag. -/
theorem posts_get_result_debug (accessToken slug : String) (url cache : Option String)
    (t : Transport) (d₁ d₂ : Bool) :
    (posts_get accessToken url d₁ slug cache t).result =
      (posts_get accessToken url d₂ slug cache t).result := by
  have h := mgmt_fetch_result_debug (mgmtApi url) accessToken ("post/" ++ slug)
    ⟨"GET", [], some (jsOrDefault cache "default")⟩ t d₁ d₂
  simp only [posts_get]
  cases hres : (mgmt_fetch (mgmtApi url) accessToken d₁ ("post/" ++ slug)
      ⟨"GET", [], some (jsOrDefault cache "default")⟩ t).result with
  | error e =>
    rw [hres] at h
    rw [← h]
  | ok post =>
    rw [hres] at h
    rw [← h]

/-- On a list of valid post records the normalizing map throws nothing
and produces exactly the in-order image of the pure normalization. -/
theorem mapJs_normalizePost_of_valid (elems : List Json)
    (h : ∀ p ∈ elems, ValidPost p = true) :
    mapJs normalizePost elems = .ok (elems.map normalizeFields) := by
  induction elems with
  | nil => rfl
  | cons p rest ih =>
    have hp : ValidPost p = true := h p (List.mem_cons_self p rest)
    have hnorm : normalizePost p = .ok (normalizeFields p) := by
      cases p <;> simp [ValidPost] at hp
      rfl
    have hrest := ih (fun q hq => h q (List.mem_cons_of_mem p hq))
    simp [mapJs, hnorm, hrest]

/-- C1: for every management-client response carrying the
subscription-status header with value inactive (and a body that parses),
both list and get raise the fixed subscription error, whatever the HTTP
status is: the header check precedes the non-2xx check, so the error is
thrown even on a 200 response. -/
theorem subscription_header_beats_status_check
    (accessToken slug : String) (url cache : Option String) (debug : Bool)
    (r : Response) (j : Json)
    (hbody : r.body = some j)
    (hheader : r.headers.lookup "zenblog-subscription-status" = some "inactive") :
    (posts_list accessToken url debug cache (.response r)).result =
      .error (throwErrorError
        "Zenblog subscription is inactive. Go to https://zenblog.com to subscribe.") ∧
    (posts_get accessToken url debug slug cache (.response r)).result =
      .error (throwErrorError
        "Zenblog subscription is inactive. Go to https://zenblog.com to subscribe.") := by
  constructor
  · simp [posts_list, mgmt_fetch, hbody, hheader]
  · simp [posts_get, mgmt_fetch, hbody, hheader]

/-- C1 witness: a 200 response with the inactive header and a parseable
body still throws the fixed subscription message. -/
def inactiveOkResponse : Response :=
  ⟨200, [("zenblog-subscription-status", "inactive")], some (Json.arr [])⟩

theorem subscription_header_beats_status_check_witness :
    (posts_list "token" none false none (.response inactiveOkResponse)).result =
      .error (throwErrorError
        "Zenblog subscription is inactive. Go to https://zenblog.com to subscribe.") :=
  (subscription_header_beats_status_check "token" "slug" none none false
    inactiveOkResponse (Json.arr []) rfl rfl).1

/-- C6: every management request carries the merge of the injected
authorization bearer header and JSON content-type with the per-call
headers, and a per-call header with the same name overrides the
injected default. -/
theorem mgmt_headers_merge (api accessToken path : String) (debug : Bool)
    (opts : RequestInit) (t : Transport) :
    (mgmt_fetch api accessToken debug path opts t).requests =
      [⟨api ++ "/" ++ path, opts.method,
        objSpread (defaultHeaders accessToken) opts.headers, opts.cache⟩] ∧
    (∀ name, (objSpread (defaultHeaders accessToken) opts.headers).lookup name =
      ((opts.headers.lookup name).orElse
        (fun _ => (defaultHeaders accessToken).lookup name))) ∧
    (defaultHeaders accessToken).lookup "authorization" =
      some ("Bearer " ++ accessToken) ∧
    (defaultHeaders accessToken).lookup "Content-Type" =
      some "application/json" := by
  refine ⟨mgmt_fetch_requests api accessToken path debug opts t,
    fun name => lookup_objSpread (defaultHeaders accessToken) opts.headers name,
    ?_, ?_⟩
  · simp [defaultHeaders, List.lookup]
  · simp [defaultHeaders, List.lookup]

/-- C10: no client validates the slug of the single-post fetch: for
every string slug, including the empty string, exactly one request is
issued and its path is the post/ segment followed by the slug
unchanged. -/
theorem no_slug_validation (blogId accessToken slug : String)
    (url cache : Option String) (debug : Bool) (t : Transport) :
    (posts_getBySlug blogId url debug slug t).requests =
      [⟨getConfig url ++ "/" ++ blogId ++ "/" ++ ("post/" ++ slug), "GET",
        [("Content-Type", "application/json")], none⟩] ∧
    (posts_get accessToken url debug slug cache t).requests =
      [⟨mgmtApi url ++ "/" ++ ("post/" ++ slug), "GET",
        objSpread (defaultHeaders accessToken) [],
        some (jsOrDefault cache "default")⟩] :=
  ⟨public_fetch_requests (getConfig url) blogId ("post/" ++ slug) debug
    ⟨"GET", [("Content-Type", "application/json")], none⟩ t,
   posts_get_requests accessToken slug url cache debug t⟩

/-- C8: for every fixed input and transport behaviour, each of the four
client operations produces the same result (returned value or thrown
error) whether the debug flag is on or off; the flag only changes the
side-channel log. -/
theorem debug_flag_never_affects_results (blogId accessToken slug : String)
    (url cache : Option String) (t : Transport) (d₁ d₂ : Bool) :
    (posts_getAll blogId url d₁ t).result = (posts_getAll blogId url d₂ t).result ∧
    (posts_getBySlug blogId url d₁ slug t).result =
      (posts_getBySlug blogId url d₂ slug t).result ∧
    (posts_list accessToken url d₁ cache t).result =
      (posts_list accessToken url d₂ cache t).result ∧
    (posts_get accessToken url d₁ slug cache t).result =
      (posts_get accessToken url d₂ slug cache t).result :=
  ⟨posts_getAll_result_debug blogId url t d₁ d₂,
   posts_getBySlug_result_debug blogId slug url t d₁ d₂,
   posts_list_result_debug accessToken url cache t d₁ d₂,
   posts_get_result_debug accessToken slug url cache t d₁ d₂⟩

/-- C5: constructing a management client in a browser-like context, or
with an empty access token, throws a configuration error synchronously
at construction; no request is ever issued during construction. -/
theorem mgmt_construction_guards (accessToken : String) (url : Option String)
    (debug windowDefined : Bool) :
    (windowDefined = true →
      (createZenblogClient accessToken url debug windowDefined).result =
        .error (throwErrorError
          "Zenblog is not supported in the browser. Make sure you don\x27t leak your access token.")) ∧
    (windowDefined = false → accessToken = "" →
      (createZenblogClient accessToken url debug windowDefined).result =
        .error (throwErrorError "accessToken is required")) ∧
    (createZenblogClient accessToken url debug windowDefined).requests = [] := by
  refine ⟨fun hw => ?_, fun hw he => ?_, ?_⟩
  · simp [createZenblogClient, hw]
  · simp [createZenblogClient, hw, he]
  · by_cases hw : windowDefined = true
    · simp [createZenblogClient, hw]
    · by_cases he : accessToken = "" <;>
        simp [createZenblogClient, hw, he]

/-- C5 witness: both guard paths at concrete inputs. -/
theorem mgmt_construction_guards_witness :
    (createZenblogClient "tok" none false true).result =
      .error (throwErrorError
        "Zenblog is not supported in the browser. Make sure you don\x27t leak your access token.") ∧
    (createZenblogClient "" none false false).result =
      .error (throwErrorError "accessToken is required") :=
  ⟨(mgmt_construction_guards "tok" none false true).1 rfl,
   (mgmt_construction_guards "" none false false).2.1 rfl rfl⟩

/-- C9: constructing the public client with an empty blog identifier
throws a configuration error synchronously, with no request issued;
with a non-empty blogId construction succeeds, and every request either
operation issues has the blogId as a URL segment. -/
theorem public_construction_guard (blogId slug : String) (url : Option String)
    (debug : Bool) :
    (createClient "" url debug).result =
      .error (throwErrorError "blogId is required") ∧
    (createClient "" url debug).requests = [] ∧
    (blogId ≠ "" → (createClient blogId url debug).result = .ok ()) ∧
    (∀ t, (posts_getAll blogId url debug t).requests =
      [⟨getConfig url ++ "/" ++ blogId ++ "/" ++ "posts", "GET",
        [("Content-Type", "application/json")], none⟩]) ∧
    (∀ t, (posts_getBySlug blogId url debug slug t).requests =
      [⟨getConfig url ++ "/" ++ blogId ++ "/" ++ ("post/" ++ slug), "GET",
        [("Content-Type", "application/json")], none⟩]) := by
  refine ⟨by simp [createClient], by simp [createClient], fun hne => ?_,
    fun t => posts_getAll_requests blogId url debug t,
    fun t => public_fetch_requests (getConfig url) blogId ("post/" ++ slug) debug
      ⟨"GET", [("Content-Type", "application/json")], none⟩ t⟩
  simp [createClient, hne]

/-- C9 witness: construction with a concrete non-empty blogId succeeds
and construction with the empty blogId throws. -/
theorem public_construction_guard_witness :
    (createClient "" none false).result =
      .error (throwErrorError "blogId is required") ∧
    (createClient "myblog" none false).result = .ok () :=
  ⟨(public_construction_guard "myblog" "s" none false).1,
   (public_construction_guard "myblog" "s" none false).2.2.1 (by decide)⟩

/-- C7: a response whose body is not valid JSON makes every operation
throw the parse error, whatever the HTTP status is; in particular the
non-2xx check never runs before the parse attempt, since even a non-2xx
malformed response surfaces the parse error and not the API error. -/
theorem malformed_body_throws_parse_error (blogId accessToken slug : String)
    (url cache : Option String) (debug : Bool) (r : Response)
    (hbody : r.body = none) :
    (posts_getAll blogId url debug (.response r)).result = .error .jsonParse ∧
    (posts_getBySlug blogId url debug slug (.response r)).result = .error .jsonParse ∧
    (posts_list accessToken url debug cache (.response r)).result = .error .jsonParse ∧
    (posts_get accessToken url debug slug cache (.response r)).result = .error .jsonParse ∧
    JsError.jsonParse ≠ throwErrorError "Error fetching data from API" := by
  refine ⟨?_, ?_, ?_, ?_, by decide⟩
  · simp [posts_getAll, public_fetch, hbody]
  · simp [posts_getBySlug, public_fetch, hbody]
  · simp [posts_list, mgmt_fetch, hbody]
  · simp [posts_get, mgmt_fetch, hbody]

/-- C7 witness: a 200 response with a malformed body throws the parse
error from getBySlug rather than returning anything. -/
def malformed200 : Response := ⟨200, [], none⟩

theorem malformed_body_throws_parse_error_witness :
    (posts_getBySlug "b" none false "s" (.response malformed200)).result =
      .error .jsonParse :=
  (malformed_body_throws_parse_error "b" "tok" "s" none none false
    malformed200 rfl).2.1

/-- C4: on a valid JSON array of post records the public getAll returns
the in-order normalized sequence whose objects hold exactly the five
Post summary keys with the original values (cover_image undefined when
not supplied, every unknown extra field dropped), while the management
list returns the parsed array unchanged, extra fields included. -/
theorem list_preserves_and_normalizes (blogId accessToken : String)
    (url cache : Option String) (debug : Bool)
    (r : Response) (elems : List Json)
    (hbody : r.body = some (.arr elems))
    (hok : r.ok = true)
    (hheader : r.headers.lookup "zenblog-subscription-status" ≠ some "inactive")
    (hvalid : ∀ p ∈ elems, ValidPost p = true) :
    (posts_getAll blogId url debug (.response r)).result =
      .ok (elems.map normalizeFields) ∧
    (∀ p, (normalizeFields p).map Prod.fst =
      ["slug", "title", "created_at", "updated_at", "cover_image"]) ∧
    (∀ p, (normalizeFields p).lookup "slug" = some (p.getField "slug") ∧
      (normalizeFields p).lookup "title" = some (p.getField "title") ∧
      (normalizeFields p).lookup "created_at" = some (p.getField "created_at") ∧
      (normalizeFields p).lookup "updated_at" = some (p.getField "updated_at") ∧
      (normalizeFields p).lookup "cover_image" = some (p.getField "cover_image")) ∧
    (posts_list accessToken url debug cache (.response r)).result =
      .ok (.arr elems) := by
  refine ⟨?_, fun p => rfl, fun p => ⟨rfl, rfl, rfl, rfl, rfl⟩, ?_⟩
  · simp [posts_getAll, public_fetch, hbody, hok,
      mapJs_normalizePost_of_valid elems hvalid]
  · simp [posts_list, mgmt_fetch, hbody, hok, hheader]

/-- C4 witness data: a 200 array response with one record carrying a
cover image and an unknown extra field, and one record without them. -/
def rawPost1 : Json := .obj [("slug", .str "a"), ("title", .str "A"),
  ("created_at", .str "2024-01-01"), ("updated_at", .str "2024-01-02"),
  ("cover_image", .str "img.png"), ("views", .num 7)]

def rawPost2 : Json := .obj [("slug", .str "b"), ("title", .str "B"),
  ("created_at", .str "2024-02-01"), ("updated_at", .str "2024-02-02")]

def listResponse : Response := ⟨200, [], some (.arr [rawPost1, rawPost2])⟩

theorem list_preserves_and_normalizes_witness :
    (posts_getAll "myblog" none false (.response listResponse)).result =
      .ok ([rawPost1, rawPost2].map normalizeFields) :=
  (list_preserves_and_normalizes "myblog" "tok" none none false listResponse
    [rawPost1, rawPost2] rfl rfl (by decide) (by decide)).1

/-- C2 counterexample data: two distinct non-2xx responses. -/
def resp404 : Response := ⟨404, [], some (Json.obj [])⟩

def resp500 : Response := ⟨500, [("x", "y")], some Json.null⟩

/-- C2 fails as stated: on a mocked 404 the thrown error message is the
marker-prefixed string, of which the fixed text is not a prefix, and
the thrown error is identical for two different triggering responses,
so the error object cannot carry the triggering response. -/
theorem request_error_shape_counterexample :
    (posts_getBySlug "myblog" none false "missing-slug" (.response resp404)).result =
      .error (JsError.error "[🚨] Error fetching data from API") ∧
    "Error fetching data from API".data.isPrefixOf
      "[🚨] Error fetching data from API".data = false ∧
    (posts_getBySlug "myblog" none false "missing-slug" (.response resp404)).result =
      (posts_getBySlug "myblog" none false "missing-slug" (.response resp500)).result ∧
    resp404.status ≠ resp500.status :=
  ⟨rfl, by decide, rfl, by decide⟩

/-- C2 amended: on every non-2xx response (with a parseable body, and
for the management client without the inactive-subscription header) the
four operations throw an Error whose message is the fixed text prefixed
by the [🚨] marker; the triggering response object is passed to the
error-logging side channel, not attached to the thrown error. -/
theorem request_error_shape_amended (blogId accessToken slug : String)
    (url cache : Option String) (debug : Bool) (r : Response) (j : Json)
    (hbody : r.body = some j) (hok : r.ok = false)
    (hheader : r.headers.lookup "zenblog-subscription-status" ≠ some "inactive") :
    ((posts_getBySlug blogId url debug slug (.response r)).result =
      .error (JsError.error ("[🚨] " ++ "Error fetching data from API")) ∧
      throwErrorEvent "Error fetching data from API" (some r) ∈
        (posts_getBySlug blogId url debug slug (.response r)).logs) ∧
    ((posts_getAll blogId url debug (.response r)).result =
      .error (JsError.error ("[🚨] " ++ "Error fetching data from API")) ∧
      throwErrorEvent "Error fetching data from API" (some r) ∈
        (posts_getAll blogId url debug (.response r)).logs) ∧
    ((posts_list accessToken url debug cache (.response r)).result =
      .error (JsError.error ("[🚨] " ++ "Error fetching data from API")) ∧
      throwErrorEvent "Error fetching data from API" (some r) ∈
        (posts_list accessToken url debug cache (.response r)).logs) ∧
    ((posts_get accessToken url debug slug cache (.response r)).result =
      .error (JsError.error ("[🚨] " ++ "Error fetching data from API")) ∧
      throwErrorEvent "Error fetching data from API" (some r) ∈
        (posts_get accessToken url debug slug cache (.response r)).logs) := by
  refine ⟨⟨?_, ?_⟩, ⟨?_, ?_⟩, ⟨?_, ?_⟩, ⟨?_, ?_⟩⟩ <;>
    cases debug <;>
      simp [posts_getBySlug, posts_getAll, posts_list, posts_get, public_fetch,
        mgmt_fetch, createDebugger, createLogger, throwErrorEvent, throwErrorError,
        hbody, hok, hheader]

/-- C2 amended witness: the 404 case at concrete inputs. -/
theorem request_error_shape_amended_witness :
    (posts_getBySlug "myblog" none false "missing-slug" (.response resp404)).result =
      .error (JsError.error ("[🚨] " ++ "Error fetching data from API")) :=
  (request_error_shape_amended "myblog" "tok" "missing-slug" none none false
    resp404 (Json.obj []) rfl rfl (by decide)).1.1

/-- C3 counterexample data: a 200 response with the inactive header and
a malformed body. -/
def inactiveMalformed : Response :=
  ⟨200, [("zenblog-subscription-status", "inactive")], none⟩

/-- C3 fails as stated: the body is interpreted (the JSON parse is
attempted) before the subscription error can be raised, so on a
malformed body with the inactive header the parse error is thrown, not
the subscription error. -/
theorem subscription_before_body_counterexample :
    (posts_get "token" none false "a" none (.response inactiveMalformed)).result =
      .error .jsonParse ∧
    JsError.jsonParse ≠ throwErrorError
      "Zenblog subscription is inactive. Go to https://zenblog.com to subscribe." :=
  ⟨rfl, by decide⟩

/-- C3 amended: with the inactive header present, the management
operations first attempt the JSON parse of the body; if it parses, the
subscription error is raised immediately, before the non-2xx check and
independently of the parsed value; if it does not parse, the parse
error is thrown instead. -/
theorem subscription_raised_after_parse_only (accessToken slug : String)
    (url cache : Option String) (debug : Bool) (r : Response)
    (hheader : r.headers.lookup "zenblog-subscription-status" = some "inactive") :
    (posts_list accessToken url debug cache (.response r)).result =
      (match r.body with
        | none => .error .jsonParse
        | some _ => .error (throwErrorError
            "Zenblog subscription is inactive. Go to https://zenblog.com to subscribe.")) ∧
    (posts_get accessToken url debug slug cache (.response r)).result =
      (match r.body with
        | none => .error .jsonParse
        | some _ => .error (throwErrorError
            "Zenblog subscription is inactive. Go to https://zenblog.com to subscribe.")) := by
  constructor <;> cases hb : r.body <;>
    simp [posts_list, posts_get, mgmt_fetch, hb, hheader]

/-- C3 amended witness data: the inactive header with a parseable body
on a non-2xx status. -/
def inactiveParsedResponse : Response :=
  ⟨404, [("zenblog-subscription-status", "inactive")], some Json.null⟩

theorem subscription_raised_after_parse_only_witness :
    (posts_get "token" none false "s" none (.response inactiveParsedResponse)).result =
      .error (throwErrorError
        "Zenblog subscription is inactive. Go to https://zenblog.com to subscribe.") :=
  (subscription_raised_after_parse_only "token" "s" none none false
    inactiveParsedResponse rfl).2
